import Mathlib

/-!
Shallow embedding of `main.go` from go-govmomi-metrics: a one-shot pipeline
that connects to a vSphere endpoint, enumerates virtual machines, resolves
the counter "cpu.usagemhz.average" to its numeric id, queries one sample per
VM and prints the matching integer value series.

Remote calls (client creation, container view creation, Retrieve, counter
catalog fetch, performance query) are modelled as oracle inputs of type
`Except String _`: the environment decides whether each call succeeds and
with what payload.  Each modelled function returns, besides its value, a
trace of the observable actions it performed (remote calls, printed metric
lines, printed diagnostics), so that ordering and resource claims can be
stated.  `os.Exit(1)` is modelled as an explicit exit code; note the Go
semantics that `os.Exit` terminates the process immediately WITHOUT running
deferred functions.
-/

namespace GovmomiMetrics

/-- vim25 `types.ManagedObjectReference` (fields the program uses). -/
structure ManagedObjectReference where
  refType : String
  value : String
  deriving DecidableEq

/-- `mo.VirtualMachine` as retrieved by `retrieveVMs`: the code asks only for
the `name` property, plus the managed object reference `vm.Reference()`. -/
structure VirtualMachine where
  ref : ManagedObjectReference
  name : String
  deriving DecidableEq

/-- `types.PerfCounterInfo`, restricted to the one field the program reads,
`counter.Key` (the opaque numeric counter id). -/
structure PerfCounterInfo where
  key : Int
  deriving DecidableEq

/-- `types.PerfMetricId`, restricted to the `CounterId` field the program
reads and writes. -/
structure PerfMetricId where
  counterId : Int
  deriving DecidableEq

/-- `types.PerfQuerySpec` with the four fields the program sets; the other
fields keep their zero values in the source and are omitted. -/
structure PerfQuerySpec where
  entity : ManagedObjectReference
  metricId : List PerfMetricId
  intervalId : Int
  maxSample : Int
  deriving DecidableEq

/-- `types.BasePerfMetricSeries`: the concrete kinds in vim25 are
`PerfMetricIntSeries` (integer values) and `PerfMetricSeriesCSV` (string
encoded values); both embed the base struct carrying `Id : PerfMetricId`.
The program downcasts to `*types.PerfMetricIntSeries` only. -/
inductive PerfMetricSeries where
  | intSeries (id : PerfMetricId) (value : List Int)
  | csvSeries (id : PerfMetricId) (value : String)
  deriving DecidableEq

/-- The counter id of a value series (present on every concrete series kind
in vim25, integer or CSV). -/
def seriesId : PerfMetricSeries → PerfMetricId
  | .intSeries id _ => id
  | .csvSeries id _ => id

/-- Whether a series is of the integer kind, i.e. would pass the
`*types.PerfMetricIntSeries` type assertion. -/
def isIntSeries : PerfMetricSeries → Bool
  | .intSeries _ _ => true
  | .csvSeries _ _ => false

/-- The integer values of a series (empty for the CSV kind, which carries
its values as a string). -/
def intValues : PerfMetricSeries → List Int
  | .intSeries _ v => v
  | .csvSeries _ _ => []

/-- `types.BasePerfEntityMetric`: the concrete kinds are
`PerfEntityMetric` (a collection of value series) and `PerfEntityMetricCSV`.
The program downcasts to `*types.PerfEntityMetric` only. -/
inductive BasePerfEntityMetric where
  | entityMetric (value : List PerfMetricSeries)
  | entityMetricCSV
  deriving DecidableEq

/-- All value series contained in the `PerfEntityMetric` envelopes of a
query response (the CSV envelope kind carries no series of this type). -/
def allSeries : List BasePerfEntityMetric → List PerfMetricSeries
  | [] => []
  | .entityMetric vs :: rest => vs ++ allSeries rest
  | .entityMetricCSV :: rest => allSeries rest

/-- Observable actions of `retrieveAndDisplayMetrics`: the catalog fetch,
each submitted performance query, and each line printed to stdout (metric
lines and per-entity diagnostics). -/
inductive Event where
  | fetchCatalog
  | querySubmitted (spec : PerfQuerySpec)
  | queryError (vmName : String)
  | typeAssertError (vmName : String)
  | seriesAssertError (vmName : String)
  | metricLine (vmName : String) (values : List Int)
  deriving DecidableEq

/-- The metric name hardcoded in `retrieveAndDisplayMetrics`. -/
def metricName : String := "cpu.usagemhz.average"

/-- The `types.PerfQuerySpec` literal built in the loop body of
`retrieveAndDisplayMetrics` for one VM: entity = the VM reference, one
metric id carrying the resolved counter key, `IntervalId: 20`,
`MaxSample: 1`. -/
def mkQuerySpec (counterKey : Int) (vm : VirtualMachine) : PerfQuerySpec :=
  { entity := vm.ref
    metricId := [{ counterId := counterKey }]
    intervalId := 20
    maxSample := 1 }

/-- The innermost loop body: downcast one series to
`*types.PerfMetricIntSeries` (on failure print the assertion diagnostic and
continue), then print the metric line only when the series counter id equals
the resolved key. -/
def processSeries (counterKey : Int) (vmName : String) : PerfMetricSeries → List Event
  | .intSeries id vals =>
      if id.counterId == counterKey then [.metricLine vmName vals] else []
  | .csvSeries _ _ => [.seriesAssertError vmName]

/-- The `for _, value := range metric.Value` loop. -/
def seriesLoop (counterKey : Int) (vmName : String) : List PerfMetricSeries → List Event
  | [] => []
  | s :: rest => processSeries counterKey vmName s ++ seriesLoop counterKey vmName rest

/-- One iteration of the `for _, baseMetric := range metrics` loop: downcast
the envelope to `*types.PerfEntityMetric`; on failure print the type
assertion diagnostic and continue. -/
def processEnvelope (counterKey : Int) (vmName : String) : BasePerfEntityMetric → List Event
  | .entityMetric vals => seriesLoop counterKey vmName vals
  | .entityMetricCSV => [.typeAssertError vmName]

/-- The `for _, baseMetric := range metrics` loop. -/
def envelopeLoop (counterKey : Int) (vmName : String) : List BasePerfEntityMetric → List Event
  | [] => []
  | m :: rest => processEnvelope counterKey vmName m ++ envelopeLoop counterKey vmName rest

/-- Oracle for `pm.Query`: given the submitted query spec, either a
transport/provider error or the response envelopes. -/
def QueryFn := PerfQuerySpec → Except String (List BasePerfEntityMetric)

/-- One iteration of the `for _, vm := range vms` loop: build the query
spec, submit it; on query error print the per-VM diagnostic and `continue`,
otherwise process the response envelopes. -/
def perVM (counterKey : Int) (q : QueryFn) (vm : VirtualMachine) : List Event :=
  Event.querySubmitted (mkQuerySpec counterKey vm) ::
    match q (mkQuerySpec counterKey vm) with
    | .error _ => [.queryError vm.name]
    | .ok metrics => envelopeLoop counterKey vm.name metrics

/-- The `for _, vm := range vms` loop of `retrieveAndDisplayMetrics`. -/
def metricsLoop (counterKey : Int) (q : QueryFn) : List VirtualMachine → List Event
  | [] => []
  | vm :: rest => perVM counterKey q vm ++ metricsLoop counterKey q rest

/-- `retrieveAndDisplayMetrics`: fetch the counter catalog once
(`pm.CounterInfoByName`; on error print and `os.Exit(1)`), look up
`metricName` (on a miss print `Metric ... not found` and `os.Exit(1)`), then
run the per-VM loop.  Result: the event trace and `some code` when the
function called `os.Exit code`, `none` when it returned normally.  The
catalog is an association list keyed by counter name, mirroring the Go
`map[string]*types.PerfCounterInfo`. -/
def retrieveAndDisplayMetrics
    (counterInfoResult : Except String (List (String × PerfCounterInfo)))
    (q : QueryFn) (vms : List VirtualMachine) : List Event × Option Nat :=
  match counterInfoResult with
  | .error _ => ([Event.fetchCatalog], some 1)
  | .ok counterInfo =>
    match counterInfo.lookup metricName with
    | none => ([Event.fetchCatalog], some 1)
    | some counter => (Event.fetchCatalog :: metricsLoop counter.key q vms, none)

/-- Remote-call steps of the whole run, for the `main`-level trace. -/
inductive Step where
  | connect
  | createView
  | retrieveCall
  | destroyView
  | fetchCatalogStep
  | queryStep (spec : PerfQuerySpec)
  deriving DecidableEq

/-- `retrieveVMs`: create the container view (on error print and
`os.Exit(1)`), register `defer v.Destroy(ctx)`, then `Retrieve` the VM list.
On Retrieve error the code prints and calls `os.Exit(1)`; in Go `os.Exit`
terminates immediately and deferred functions are NOT run, so `destroyView`
appears in the trace only on the success path, where the deferred call runs
as the function returns.  Result: the step trace, and either `Except.error
code` for `os.Exit code` or the VM list. -/
def retrieveVMs
    (createViewResult : Except String Unit)
    (retrieveResult : Except String (List VirtualMachine)) :
    List Step × Except Nat (List VirtualMachine) :=
  match createViewResult with
  | .error _ => ([Step.createView], .error 1)
  | .ok _ =>
    match retrieveResult with
    | .error _ => ([Step.createView, Step.retrieveCall], .error 1)
    | .ok vms => ([Step.createView, Step.retrieveCall, Step.destroyView], .ok vms)

/-- A parsed URL (`net/url.URL`), restricted to what the program touches:
`createVSphereClient` only sets `u.User`. -/
structure URL where
  scheme : String
  host : String
  path : String
  userinfo : Option (String × String)
  deriving DecidableEq

/-- The arguments of the `govmomi.NewClient(ctx, u, insecure)` call:
the URL (with credentials installed) and the insecure flag. -/
structure NewClientCall where
  url : URL
  insecure : Bool
  deriving DecidableEq

/-- `createVSphereClient`: parse the URL (on error `os.Exit(1)`), install
the credentials, and call `govmomi.NewClient(ctx, u, true)` — the third
argument, the insecure flag that skips certificate validation, is the
literal `true` in the source.  The model returns the `NewClient` call that
is issued (the oracle decides separately whether that call succeeds). -/
def createVSphereClient (parseResult : Except String URL) (user pass : String) :
    Except Nat NewClientCall :=
  match parseResult with
  | .error _ => .error 1
  | .ok u => .ok { url := { u with userinfo := some (user, pass) }, insecure := true }

/-- Environment oracle for one whole run: the outcome of each remote call
`main` performs (client creation, view creation, Retrieve, catalog fetch)
and the per-query outcomes. -/
structure Oracle where
  newClientResult : Except String Unit
  createViewResult : Except String Unit
  retrieveResult : Except String (List VirtualMachine)
  counterInfoResult : Except String (List (String × PerfCounterInfo))
  queryFn : QueryFn

/-- The remote-call steps an event of `retrieveAndDisplayMetrics`
corresponds to (printed lines are not remote calls). -/
def eventSteps : Event → List Step
  | .fetchCatalog => [Step.fetchCatalogStep]
  | .querySubmitted spec => [Step.queryStep spec]
  | _ => []

/-- `main` after configuration loading: connect, retrieve the VM list, then
retrieve and display metrics.  Result: the remote-call trace of the run and
the process exit status (0 when `main` returns normally, else the
`os.Exit` code of the step that aborted). -/
def mainRun (o : Oracle) : List Step × Nat :=
  match o.newClientResult with
  | .error _ => ([Step.connect], 1)
  | .ok _ =>
    match retrieveVMs o.createViewResult o.retrieveResult with
    | (steps, .error code) => (Step.connect :: steps, code)
    | (steps, .ok vms) =>
      match retrieveAndDisplayMetrics o.counterInfoResult o.queryFn vms with
      | (events, exitCode) =>
          (Step.connect :: steps ++ (events.map eventSteps).flatten, exitCode.getD 0)

/-- The query specs submitted in an event trace, in order. -/
def querySpecsOf (evs : List Event) : List PerfQuerySpec :=
  evs.filterMap fun e =>
    match e with
    | .querySubmitted spec => some spec
    | _ => none

/-- The metric lines surfaced in an event trace (entity name and integer
value sequence), in order. -/
def surfaced (evs : List Event) : List (String × List Int) :=
  evs.filterMap fun e =>
    match e with
    | .metricLine n v => some (n, v)
    | _ => none

/-- A concrete VM used to evaluate the model on closed inputs. -/
def witnessVM : VirtualMachine :=
  { ref := { refType := "VirtualMachine", value := "vm-101" }, name := "web-01" }

/-- A concrete catalog containing the requested metric with counter id 6. -/
def witnessCatalog : List (String × PerfCounterInfo) := [(metricName, { key := 6 })]

/-- A concrete catalog NOT containing the requested metric. -/
def witnessCatalogMissing : List (String × PerfCounterInfo) :=
  [("mem.usage.average", { key := 24 })]

/-- A concrete query oracle that answers every query with one integer
series for counter id 6. -/
def witnessQueryOk : QueryFn :=
  fun _ => .ok [.entityMetric [.intSeries { counterId := 6 } [350]]]

/-- A concrete query oracle that fails every query with a transport error. -/
def witnessQueryFail : QueryFn := fun _ => .error "transport error"

/-- A concrete run environment: all pipeline calls succeed but every
per-entity performance query fails with a transport error. -/
def witnessOracleQueryFail : Oracle :=
  { newClientResult := .ok ()
    createViewResult := .ok ()
    retrieveResult := .ok [witnessVM]
    counterInfoResult := .ok witnessCatalog
    queryFn := witnessQueryFail }

/-- A concrete run environment whose catalog lacks the requested metric. -/
def witnessOracleNoMetric : Oracle :=
  { newClientResult := .ok ()
    createViewResult := .ok ()
    retrieveResult := .ok [witnessVM]
    counterInfoResult := .ok witnessCatalogMissing
    queryFn := witnessQueryOk }

/-- A concrete run environment whose inventory Retrieve call fails. -/
def witnessOracleRetrieveFail : Oracle :=
  { newClientResult := .ok ()
    createViewResult := .ok ()
    retrieveResult := .error "ServerFaultCode"
    counterInfoResult := .ok witnessCatalog
    queryFn := witnessQueryOk }

/-- A concrete parsed URL for the client creation model. -/
def witnessURL : URL :=
  { scheme := "https", host := "vcsa.example", path := "/sdk", userinfo := none }

/-- A query response holding a single CSV-kind series whose counter id DOES
match the requested id 6. -/
def cexMatchingCSV : List BasePerfEntityMetric :=
  [.entityMetric [.csvSeries { counterId := 6 } "350"]]

/-- A query response holding a single CSV-kind series whose counter id does
NOT match the requested id 6. -/
def cexNonMatchingCSV : List BasePerfEntityMetric :=
  [.entityMetric [.csvSeries { counterId := 7 } "125"]]

/-- A query response whose series are all of the integer kind: one matching
counter id 6, one not. -/
def witnessIntResponse : List BasePerfEntityMetric :=
  [.entityMetric [.intSeries { counterId := 6 } [350], .intSeries { counterId := 7 } [100]]]

/-! Helper lemmas about the loop structure. -/

theorem metricsLoop_append (counterKey : Int) (q : QueryFn) (xs ys : List VirtualMachine) :
    metricsLoop counterKey q (xs ++ ys)
      = metricsLoop counterKey q xs ++ metricsLoop counterKey q ys := by
  induction xs with
  | nil => simp [metricsLoop]
  | cons vm rest ih => simp [metricsLoop, ih]

theorem metricsLoop_eq_flatten (counterKey : Int) (q : QueryFn) (vms : List VirtualMachine) :
    metricsLoop counterKey q vms = (vms.map (perVM counterKey q)).flatten := by
  induction vms with
  | nil => simp [metricsLoop]
  | cons vm rest ih => simp [metricsLoop, ih]

theorem querySpecsOf_append (a b : List Event) :
    querySpecsOf (a ++ b) = querySpecsOf a ++ querySpecsOf b := by
  simp [querySpecsOf, List.filterMap_append]

theorem querySpecsOf_processSeries (counterKey : Int) (vmName : String) (s : PerfMetricSeries) :
    querySpecsOf (processSeries counterKey vmName s) = [] := by
  cases s with
  | intSeries id vals =>
      simp only [processSeries]
      split <;> simp [querySpecsOf]
  | csvSeries id v => simp [processSeries, querySpecsOf]

theorem querySpecsOf_seriesLoop (counterKey : Int) (vmName : String)
    (vs : List PerfMetricSeries) :
    querySpecsOf (seriesLoop counterKey vmName vs) = [] := by
  induction vs with
  | nil => simp [seriesLoop, querySpecsOf]
  | cons s rest ih =>
      simp [seriesLoop, querySpecsOf_append, querySpecsOf_processSeries, ih]

theorem querySpecsOf_envelopeLoop (counterKey : Int) (vmName : String)
    (ms : List BasePerfEntityMetric) :
    querySpecsOf (envelopeLoop counterKey vmName ms) = [] := by
  induction ms with
  | nil => simp [envelopeLoop, querySpecsOf]
  | cons m rest ih =>
      cases m with
      | entityMetric vs =>
          simp [envelopeLoop, processEnvelope, querySpecsOf_append,
                querySpecsOf_seriesLoop, ih]
      | entityMetricCSV =>
          simpa [envelopeLoop, processEnvelope, querySpecsOf] using ih

theorem querySpecsOf_perVM (counterKey : Int) (q : QueryFn) (vm : VirtualMachine) :
    querySpecsOf (perVM counterKey q vm) = [mkQuerySpec counterKey vm] := by
  unfold perVM
  cases q (mkQuerySpec counterKey vm) with
  | error e => simp [querySpecsOf]
  | ok ms =>
      simpa [querySpecsOf] using querySpecsOf_envelopeLoop counterKey vm.name ms

theorem querySpecsOf_metricsLoop (counterKey : Int) (q : QueryFn)
    (vms : List VirtualMachine) :
    querySpecsOf (metricsLoop counterKey q vms) = vms.map (mkQuerySpec counterKey) := by
  induction vms with
  | nil => simp [metricsLoop, querySpecsOf]
  | cons vm rest ih =>
      simp [metricsLoop, querySpecsOf_append, querySpecsOf_perVM, ih]

theorem fetchCatalog_not_in_processSeries (counterKey : Int) (vmName : String)
    (s : PerfMetricSeries) :
    Event.fetchCatalog ∉ processSeries counterKey vmName s := by
  cases s with
  | intSeries id vals =>
      simp only [processSeries]
      split <;> simp
  | csvSeries id v => simp [processSeries]

theorem fetchCatalog_not_in_seriesLoop (counterKey : Int) (vmName : String)
    (vs : List PerfMetricSeries) :
    Event.fetchCatalog ∉ seriesLoop counterKey vmName vs := by
  induction vs with
  | nil => simp [seriesLoop]
  | cons s rest ih =>
      simp [seriesLoop, List.mem_append, ih,
            fetchCatalog_not_in_processSeries counterKey vmName s]

theorem fetchCatalog_not_in_envelopeLoop (counterKey : Int) (vmName : String)
    (ms : List BasePerfEntityMetric) :
    Event.fetchCatalog ∉ envelopeLoop counterKey vmName ms := by
  induction ms with
  | nil => simp [envelopeLoop]
  | cons m rest ih =>
      cases m with
      | entityMetric vs =>
          simp [envelopeLoop, processEnvelope, List.mem_append, ih,
                fetchCatalog_not_in_seriesLoop counterKey vmName vs]
      | entityMetricCSV =>
          simp [envelopeLoop, processEnvelope, List.mem_append, ih]

theorem fetchCatalog_not_in_perVM (counterKey : Int) (q : QueryFn) (vm : VirtualMachine) :
    Event.fetchCatalog ∉ perVM counterKey q vm := by
  unfold perVM
  cases q (mkQuerySpec counterKey vm) with
  | error e => simp
  | ok ms => simp [fetchCatalog_not_in_envelopeLoop counterKey vm.name ms]

theorem fetchCatalog_not_in_metricsLoop (counterKey : Int) (q : QueryFn)
    (vms : List VirtualMachine) :
    Event.fetchCatalog ∉ metricsLoop counterKey q vms := by
  induction vms with
  | nil => simp [metricsLoop]
  | cons vm rest ih =>
      simp [metricsLoop, List.mem_append, ih,
            fetchCatalog_not_in_perVM counterKey q vm]

theorem seriesLoop_int_eq (counterKey : Int) (vmName : String) :
    ∀ vs : List PerfMetricSeries, (∀ s ∈ vs, isIntSeries s = true) →
      seriesLoop counterKey vmName vs
        = (vs.filter (fun s => (seriesId s).counterId == counterKey)).map
            (fun s => Event.metricLine vmName (intValues s)) := by
  intro vs
  induction vs with
  | nil => intro _; simp [seriesLoop]
  | cons s rest ih =>
      intro hInt
      have hrest : ∀ x ∈ rest, isIntSeries x = true := fun x hx => hInt x (by simp [hx])
      cases s with
      | csvSeries id v =>
          have hs := hInt (.csvSeries id v) (by simp)
          simp [isIntSeries] at hs
      | intSeries id vals =>
          simp only [seriesLoop, processSeries, List.filter_cons]
          by_cases h : (id.counterId == counterKey) = true
          · simp [seriesId, h, ih hrest, intValues]
          · simp [seriesId, h, ih hrest]

theorem envelopeLoop_int_eq (counterKey : Int) (vmName : String) :
    ∀ metrics : List BasePerfEntityMetric,
      (∀ m ∈ metrics, m ≠ BasePerfEntityMetric.entityMetricCSV) →
      (∀ s ∈ allSeries metrics, isIntSeries s = true) →
      envelopeLoop counterKey vmName metrics
        = ((allSeries metrics).filter (fun s => (seriesId s).counterId == counterKey)).map
            (fun s => Event.metricLine vmName (intValues s)) := by
  intro metrics
  induction metrics with
  | nil => intro _ _; simp [envelopeLoop, allSeries]
  | cons m rest ih =>
      intro hEnv hInt
      cases m with
      | entityMetricCSV => exact absurd rfl (hEnv _ (by simp))
      | entityMetric vs =>
          have h1 : ∀ s ∈ vs, isIntSeries s = true :=
            fun s hs => hInt s (by simp [allSeries, hs])
          have h2 : ∀ s ∈ allSeries rest, isIntSeries s = true :=
            fun s hs => hInt s (by simp [allSeries, hs])
          have h3 : ∀ m2 ∈ rest, m2 ≠ BasePerfEntityMetric.entityMetricCSV :=
            fun m2 hm2 => hEnv m2 (by simp [hm2])
          simp [envelopeLoop, processEnvelope, allSeries, List.filter_append,
                seriesLoop_int_eq counterKey vmName vs h1, ih h3 h2]

/-! Claim theorems. -/

/-- C1 counterexample: the claim quantifies over all query responses, but a
CSV-kind value series carries a counter id too.  On a response whose single
series has the matching counter id 6 but is of the CSV kind (K = 1), the
extraction loop surfaces 0 value sequences, not 1; and on a response whose
single CSV series does not match (K = 0), the entity still produces output
(a logged series-type diagnostic), contradicting the no-output-no-error
clause. -/
theorem extraction_counterexample :
    ((allSeries cexMatchingCSV).filter (fun s => (seriesId s).counterId == 6)).length = 1
    ∧ (surfaced (envelopeLoop 6 "web-01" cexMatchingCSV)).length = 0
    ∧ ((allSeries cexNonMatchingCSV).filter (fun s => (seriesId s).counterId == 6)).length = 0
    ∧ envelopeLoop 6 "web-01" cexNonMatchingCSV ≠ [] := by
  decide

/-- C1 (amended): for every query response whose envelopes are all of the
entity-metric kind and whose value series are all of the integer kind, the
extraction loop surfaces exactly the K series whose counter id equals the
requested one — one metric line per matching series, in order, nothing for
the other N − K, and no diagnostics; in particular K = 0 yields the empty
trace. -/
theorem extraction_int_series_exact_matches (counterKey : Int) (vmName : String)
    (metrics : List BasePerfEntityMetric)
    (hEnv : ∀ m ∈ metrics, m ≠ BasePerfEntityMetric.entityMetricCSV)
    (hInt : ∀ s ∈ allSeries metrics, isIntSeries s = true) :
    envelopeLoop counterKey vmName metrics
      = ((allSeries metrics).filter (fun s => (seriesId s).counterId == counterKey)).map
          (fun s => Event.metricLine vmName (intValues s))
    ∧ (envelopeLoop counterKey vmName metrics).length
        = ((allSeries metrics).filter (fun s => (seriesId s).counterId == counterKey)).length := by
  have h := envelopeLoop_int_eq counterKey vmName metrics hEnv hInt
  exact ⟨h, by rw [h]; simp⟩

/-- Witness for C1 at a concrete response: two integer series, one matching
counter id 6 and one not. -/
theorem extraction_int_series_exact_matches_witness :
    envelopeLoop 6 "web-01" witnessIntResponse
      = ((allSeries witnessIntResponse).filter (fun s => (seriesId s).counterId == 6)).map
          (fun s => Event.metricLine "web-01" (intValues s))
    ∧ (envelopeLoop 6 "web-01" witnessIntResponse).length
        = ((allSeries witnessIntResponse).filter
            (fun s => (seriesId s).counterId == 6)).length :=
  extraction_int_series_exact_matches 6 "web-01" witnessIntResponse
    (by decide) (by decide)

/-- C2: a per-entity query failure produces the per-VM diagnostic naming the
entity, contributes nothing else for that entity, leaves the processing of
all entities before and after it unchanged, and the run still exits with
status 0. -/
theorem per_entity_query_failure_nonfatal (o : Oracle) (xs ys : List VirtualMachine)
    (vm : VirtualMachine) (cat : List (String × PerfCounterInfo))
    (counter : PerfCounterInfo) (e : String)
    (h1 : o.newClientResult = .ok ())
    (h2 : o.createViewResult = .ok ())
    (h3 : o.retrieveResult = .ok (xs ++ vm :: ys))
    (h4 : o.counterInfoResult = .ok cat)
    (h5 : cat.lookup metricName = some counter)
    (h6 : o.queryFn (mkQuerySpec counter.key vm) = .error e) :
    metricsLoop counter.key o.queryFn (xs ++ vm :: ys)
      = metricsLoop counter.key o.queryFn xs
        ++ Event.querySubmitted (mkQuerySpec counter.key vm)
           :: Event.queryError vm.name :: metricsLoop counter.key o.queryFn ys
    ∧ (mainRun o).2 = 0 := by
  constructor
  · rw [metricsLoop_append]
    simp [metricsLoop, perVM, h6]
  · simp [mainRun, h1, retrieveVMs, h2, h3, retrieveAndDisplayMetrics, h4, h5]

/-- Witness for C2: the single VM of the inventory fails with a transport
error and the run exits 0. -/
theorem per_entity_query_failure_nonfatal_witness :
    (metricsLoop 6 witnessOracleQueryFail.queryFn ([] ++ witnessVM :: [])
      = metricsLoop 6 witnessOracleQueryFail.queryFn []
        ++ Event.querySubmitted (mkQuerySpec 6 witnessVM)
           :: Event.queryError witnessVM.name
           :: metricsLoop 6 witnessOracleQueryFail.queryFn [])
    ∧ (mainRun witnessOracleQueryFail).2 = 0 :=
  per_entity_query_failure_nonfatal witnessOracleQueryFail [] [] witnessVM
    witnessCatalog { key := 6 } "transport error" rfl rfl rfl rfl (by decide) rfl

/-- C3 (code evaluated at the failing input): when the container view is
created but the Retrieve call fails, the code prints and calls
`os.Exit(1)`; `os.Exit` does not run deferred functions, so the deferred
`v.Destroy` never executes and `destroyView` is absent from the trace.  On
the success path the deferred destroy does run. -/
theorem retrieve_failure_skips_view_destroy :
    (retrieveVMs (.ok ()) (.error "transport error")).1
      = [Step.createView, Step.retrieveCall]
    ∧ Step.destroyView ∉ (retrieveVMs (.ok ()) (.error "transport error")).1
    ∧ (retrieveVMs (.ok ()) (.error "transport error")).2 = .error 1
    ∧ Step.destroyView ∈ (retrieveVMs (.ok ()) (.ok [])).1 := by
  refine ⟨rfl, by decide, rfl, by decide⟩

/-- C4: when the metric name is absent from the catalog the run is fatal:
`retrieveAndDisplayMetrics` stops right after the catalog fetch with exit
code 1, no descriptor is produced, and the whole-run trace contains the
catalog fetch but not a single performance query. -/
theorem unknown_metric_fatal (o : Oracle) (vms : List VirtualMachine)
    (cat : List (String × PerfCounterInfo))
    (h1 : o.newClientResult = .ok ())
    (h2 : o.createViewResult = .ok ())
    (h3 : o.retrieveResult = .ok vms)
    (h4 : o.counterInfoResult = .ok cat)
    (h5 : cat.lookup metricName = none) :
    retrieveAndDisplayMetrics (.ok cat) o.queryFn vms = ([Event.fetchCatalog], some 1)
    ∧ mainRun o = ([Step.connect, Step.createView, Step.retrieveCall, Step.destroyView,
        Step.fetchCatalogStep], 1) := by
  constructor
  · simp [retrieveAndDisplayMetrics, h5]
  · simp [mainRun, h1, retrieveVMs, h2, h3, retrieveAndDisplayMetrics, h4, h5, eventSteps]

/-- Witness for C4: a run whose catalog lacks the requested metric. -/
theorem unknown_metric_fatal_witness :
    retrieveAndDisplayMetrics (.ok witnessCatalogMissing)
        witnessOracleNoMetric.queryFn [witnessVM]
      = ([Event.fetchCatalog], some 1)
    ∧ mainRun witnessOracleNoMetric
      = ([Step.connect, Step.createView, Step.retrieveCall, Step.destroyView,
          Step.fetchCatalogStep], 1) :=
  unknown_metric_fatal witnessOracleNoMetric [witnessVM] witnessCatalogMissing
    rfl rfl rfl rfl (by decide)

/-- C5: when the metric name resolves, the event trace of
`retrieveAndDisplayMetrics` is one catalog fetch followed by the per-entity
loop, the loop itself never fetches the catalog again, and every submitted
query spec carries exactly the one resolved counter id. -/
theorem catalog_fetched_once (cat : List (String × PerfCounterInfo))
    (counter : PerfCounterInfo) (q : QueryFn) (vms : List VirtualMachine)
    (h : cat.lookup metricName = some counter) :
    (retrieveAndDisplayMetrics (.ok cat) q vms).1
      = Event.fetchCatalog :: metricsLoop counter.key q vms
    ∧ Event.fetchCatalog ∉ metricsLoop counter.key q vms
    ∧ querySpecsOf (metricsLoop counter.key q vms) = vms.map (mkQuerySpec counter.key) := by
  refine ⟨?_, fetchCatalog_not_in_metricsLoop counter.key q vms,
    querySpecsOf_metricsLoop counter.key q vms⟩
  simp [retrieveAndDisplayMetrics, h]

/-- Witness for C5 on a concrete catalog, query oracle and inventory. -/
theorem catalog_fetched_once_witness :
    (retrieveAndDisplayMetrics (.ok witnessCatalog) witnessQueryOk [witnessVM]).1
      = Event.fetchCatalog :: metricsLoop 6 witnessQueryOk [witnessVM]
    ∧ Event.fetchCatalog ∉ metricsLoop 6 witnessQueryOk [witnessVM]
    ∧ querySpecsOf (metricsLoop 6 witnessQueryOk [witnessVM])
      = [witnessVM].map (mkQuerySpec 6) :=
  catalog_fetched_once witnessCatalog { key := 6 } witnessQueryOk [witnessVM] (by decide)

/-- C6: a CSV-kind series produces exactly the series-assertion diagnostic
(never a metric line), the series loop then continues with the remaining
series, a CSV-kind response envelope likewise produces the type-assertion
diagnostic and the envelope loop continues, and whenever the metric name
resolves the function never exits — no response shape is fatal. -/
theorem non_integer_series_skipped (counterKey : Int) (vmName : String)
    (id : PerfMetricId) (v : String) (restS : List PerfMetricSeries)
    (restM : List BasePerfEntityMetric) (cat : List (String × PerfCounterInfo))
    (counter : PerfCounterInfo) (q : QueryFn) (vms : List VirtualMachine)
    (h : cat.lookup metricName = some counter) :
    processSeries counterKey vmName (.csvSeries id v) = [Event.seriesAssertError vmName]
    ∧ surfaced (processSeries counterKey vmName (.csvSeries id v)) = []
    ∧ seriesLoop counterKey vmName (.csvSeries id v :: restS)
      = Event.seriesAssertError vmName :: seriesLoop counterKey vmName restS
    ∧ envelopeLoop counterKey vmName (.entityMetricCSV :: restM)
      = Event.typeAssertError vmName :: envelopeLoop counterKey vmName restM
    ∧ (retrieveAndDisplayMetrics (.ok cat) q vms).2 = none := by
  refine ⟨rfl, rfl, ?_, ?_, ?_⟩
  · simp [seriesLoop, processSeries]
  · simp [envelopeLoop, processEnvelope]
  · simp [retrieveAndDisplayMetrics, h]

/-- Witness for C6 at concrete series, envelopes, catalog and inventory. -/
theorem non_integer_series_skipped_witness :
    processSeries 6 "web-01" (.csvSeries { counterId := 6 } "350")
      = [Event.seriesAssertError "web-01"]
    ∧ surfaced (processSeries 6 "web-01" (.csvSeries { counterId := 6 } "350")) = []
    ∧ seriesLoop 6 "web-01" (.csvSeries { counterId := 6 } "350"
          :: [.intSeries { counterId := 6 } [350]])
      = Event.seriesAssertError "web-01"
          :: seriesLoop 6 "web-01" [.intSeries { counterId := 6 } [350]]
    ∧ envelopeLoop 6 "web-01" (.entityMetricCSV :: [.entityMetric []])
      = Event.typeAssertError "web-01" :: envelopeLoop 6 "web-01" [.entityMetric []]
    ∧ (retrieveAndDisplayMetrics (.ok witnessCatalog) witnessQueryOk [witnessVM]).2
      = none :=
  non_integer_series_skipped 6 "web-01" { counterId := 6 } "350"
    [.intSeries { counterId := 6 } [350]] [.entityMetric []] witnessCatalog
    { key := 6 } witnessQueryOk [witnessVM] (by decide)

/-- C7: the per-entity loop submits exactly one query per inventory entity,
in order, and each submitted spec is scoped to that entity alone with the
single resolved counter id, sampling interval 20 and at most 1 sample. -/
theorem query_spec_single_entity_single_counter (counterKey : Int) (q : QueryFn)
    (vms : List VirtualMachine) :
    querySpecsOf (metricsLoop counterKey q vms) = vms.map (mkQuerySpec counterKey)
    ∧ ∀ vm : VirtualMachine,
        (mkQuerySpec counterKey vm).entity = vm.ref
        ∧ (mkQuerySpec counterKey vm).metricId = [{ counterId := counterKey }]
        ∧ (mkQuerySpec counterKey vm).intervalId = 20
        ∧ (mkQuerySpec counterKey vm).maxSample = 1 := by
  exact ⟨querySpecsOf_metricsLoop counterKey q vms,
    fun vm => ⟨rfl, rfl, rfl, rfl⟩⟩

/-- C8: when the client connects but inventory listing fails (view creation
or Retrieve), the run exits with status 1 and its trace contains neither a
catalog fetch nor any performance query. -/
theorem inventory_failure_short_circuit (o : Oracle) (e : String)
    (h1 : o.newClientResult = .ok ())
    (h2 : o.createViewResult = .error e ∨ o.retrieveResult = .error e) :
    (mainRun o).2 = 1
    ∧ Step.fetchCatalogStep ∉ (mainRun o).1
    ∧ ∀ spec : PerfQuerySpec, Step.queryStep spec ∉ (mainRun o).1 := by
  cases hv : o.createViewResult with
  | error ev =>
      have hm : mainRun o = ([Step.connect, Step.createView], 1) := by
        simp [mainRun, h1, retrieveVMs, hv]
      rw [hm]
      exact ⟨rfl, by simp, fun spec => by simp⟩
  | ok u =>
      rcases h2 with h2 | h2
      · rw [hv] at h2
        simp at h2
      · have hm : mainRun o = ([Step.connect, Step.createView, Step.retrieveCall], 1) := by
          simp [mainRun, h1, retrieveVMs, hv, h2]
        rw [hm]
        exact ⟨rfl, by simp, fun spec => by simp⟩

/-- Witness for C8: the Retrieve call fails in a concrete run environment. -/
theorem inventory_failure_short_circuit_witness :
    (mainRun witnessOracleRetrieveFail).2 = 1
    ∧ Step.fetchCatalogStep ∉ (mainRun witnessOracleRetrieveFail).1
    ∧ Step.queryStep (mkQuerySpec 6 witnessVM) ∉ (mainRun witnessOracleRetrieveFail).1 :=
  ⟨(inventory_failure_short_circuit witnessOracleRetrieveFail "ServerFaultCode"
      rfl (Or.inr rfl)).1,
   (inventory_failure_short_circuit witnessOracleRetrieveFail "ServerFaultCode"
      rfl (Or.inr rfl)).2.1,
   (inventory_failure_short_circuit witnessOracleRetrieveFail "ServerFaultCode"
      rfl (Or.inr rfl)).2.2 (mkQuerySpec 6 witnessVM)⟩

/-- C9: every `govmomi.NewClient` call the session step issues carries the
insecure flag hardcoded to `true`; no input to `createVSphereClient` can
make it `false`. -/
theorem insecure_flag_always_true (parseResult : Except String URL)
    (user pass : String) (c : NewClientCall)
    (h : createVSphereClient parseResult user pass = .ok c) :
    c.insecure = true := by
  cases parseResult with
  | error e => simp [createVSphereClient] at h
  | ok u =>
      simp only [createVSphereClient, Except.ok.injEq] at h
      rw [← h]

/-- Witness for C9 at a concrete URL and concrete credentials. -/
theorem insecure_flag_always_true_witness :
    ({ url := { witnessURL with userinfo := some ("admin", "secret") },
       insecure := true } : NewClientCall).insecure = true :=
  insecure_flag_always_true (.ok witnessURL) "admin" "secret" _ rfl

/-- C10: the per-entity loop is sequential in inventory order: the trace of
a split inventory is the concatenation of the traces of its parts (so all
events of an earlier entity precede every event of a later one), and the
whole trace is the ordered flattening of the per-entity traces. -/
theorem output_follows_inventory_order (counterKey : Int) (q : QueryFn)
    (xs ys : List VirtualMachine) :
    metricsLoop counterKey q (xs ++ ys)
      = metricsLoop counterKey q xs ++ metricsLoop counterKey q ys
    ∧ ∀ vms : List VirtualMachine,
        metricsLoop counterKey q vms = (vms.map (perVM counterKey q)).flatten :=
  ⟨metricsLoop_append counterKey q xs ys, metricsLoop_eq_flatten counterKey q⟩

end GovmomiMetrics
